import Mathlib

/-!
Verification development for the tutoring chat client.

Shallow embedding of the conversation-orchestration core: the pre-send
gate, history assembly, remote-request construction, response extraction
(mermaid blocks and mentor-status tool calls) and the mentor status
tracker, as implemented in src/App.tsx, src/unnamed/part_001 and
src/services/geminiService.ts.  The repository contains two variants of
the main component (App.tsx and unnamed/part_001); both are embedded.

JavaScript strings are modelled as lists of characters; toLowerCase and
the whitespace classes of the regexes are modelled over ASCII.
-/

/-- JavaScript strings are modelled as lists of characters. -/
abbrev Str := List Char

/-- Coerce a Lean string literal into the character-list model. -/
def str (s : String) : Str := s.data

/-- ASCII lower-casing of one character, modelling toLowerCase and the i regex flag. -/
def lowerCh (c : Char) : Char :=
  if 'A' ≤ c ∧ c ≤ 'Z' then Char.ofNat (c.toNat + 32) else c

/-- Lower-case a whole string. -/
def lowerStr (s : Str) : Str := s.map lowerCh

/-- Whitespace as matched by the regex whitespace class and by trim (ASCII part). -/
def isWs (c : Char) : Bool :=
  c = ' ' || c = '\t' || c = '\n' || c = '\r' || c = Char.ofNat 11 || c = Char.ofNat 12

/-- JavaScript trim: strip whitespace from both ends. -/
def trimStr (s : Str) : Str :=
  ((s.dropWhile isWs).reverse.dropWhile isWs).reverse

/-- JavaScript includes: substring occurrence test. -/
def containsSub : Str → Str → Bool
  | [], needle => needle.isEmpty
  | h :: t, needle => needle.isPrefixOf (h :: t) || containsSub t needle

/-- Case-insensitive match of the literal w (given lower-cased) at the start of s. -/
def startsWithCI (w s : Str) : Bool := decide ((s.take w.length).map lowerCh = w)

/-- Action alternatives of the cheatRegex in part_001 line 72. -/
def cheatActions : List Str := [str "give", str "write", str "show"]

/-- Target alternatives of the cheatRegex in part_001 line 72. -/
def cheatTargets : List Str := [str "code", str "answer", str "solution", str "full"]

/-- Line terminators, which the dot of a JavaScript regex never matches. -/
def isLineTerm (c : Char) : Bool := c = '\n' || c = '\r'

/-- Tail of the cheatRegex: does some target word occur at or after the start of s,
with only non-terminator characters before it (the dot-star of the pattern)? -/
def cheatTargetAfter : Str → Bool
  | [] => false
  | c :: t =>
    cheatTargets.any (fun w => startsWithCI w (c :: t)) ||
      (!isLineTerm c && cheatTargetAfter t)

/-- part_001 line 72: test of the cheatRegex (give or write or show, then dot-star,
then code or answer or solution or full) with the i flag. -/
def cheatRegexTest : Str → Bool
  | [] => false
  | c :: t =>
    cheatActions.any
        (fun w => startsWithCI w (c :: t) && cheatTargetAfter ((c :: t).drop w.length)) ||
      cheatRegexTest t

/-- part_001 lines 72-76: the Gate of the primary send path — a cheatRegex hit
without a logic or explain qualifier. -/
def p1ShouldBlock (input : Str) : Bool :=
  cheatRegexTest input &&
    !containsSub (lowerStr input) (str "logic") &&
    !containsSub (lowerStr input) (str "explain")

/-- App.tsx line 113: the Gate regex (code or write or solution or answer or full code)
with the i flag, applied to the lower-cased text. -/
def appCheatRegexTest (text : Str) : Bool :=
  containsSub (lowerStr text) (str "code") ||
    containsSub (lowerStr text) (str "write") ||
    containsSub (lowerStr text) (str "solution") ||
    containsSub (lowerStr text) (str "answer") ||
    containsSub (lowerStr text) (str "full code")

/-- geminiService.ts lines 33-36: result type of sendMessageToGemini.  The runtime
value of mentorStatus is any string the tool call carried (the TypeScript cast
performs no check), hence Option Str rather than a two-value enumeration. -/
structure ChatResponse where
  text : Str
  mentorStatus : Option Str
deriving DecidableEq, Repr

/-- Arguments object of a tool call; the status field may be absent. -/
structure StatusArgs where
  status : Option Str
deriving DecidableEq, Repr

/-- A tool call as delivered by the SDK; the args object itself may be absent. -/
structure FunctionCall where
  name : Str
  args : Option StatusArgs
deriving DecidableEq, Repr

/-- geminiService.ts line 6: name of the declared side-channel capability. -/
def updateMentorStatusName : Str := str "updateMentorStatus"

/-- geminiService.ts lines 64-78: the loop over result.functionCalls.  Reading
the status field of an absent args object raises a TypeError, modelled as
Except.error; otherwise the status value (possibly absent) overwrites the
accumulator whenever the call names the capability. -/
def extractMentorStatus : List FunctionCall → Option Str → Except Unit (Option Str)
  | [], acc => .ok acc
  | c :: rest, acc =>
    if c.name = updateMentorStatusName then
      match c.args with
      | none => .error ()
      | some a => extractMentorStatus rest a.status
    else extractMentorStatus rest acc

/-- Raw completion result: result.text and result.functionCalls may each be absent. -/
structure GenResult where
  text : Option Str
  functionCalls : Option (List FunctionCall)
deriving DecidableEq, Repr

/-- geminiService.ts lines 58-112: response handling of sendMessageToGemini.
followupText is the text of the optional second round trip taken when the
model returned tool calls but no text. -/
def geminiResponseOf (result : GenResult) (followupText : Option Str) :
    Except Unit ChatResponse :=
  let calls := result.functionCalls.getD []
  match extractMentorStatus calls none with
  | .error e => .error e
  | .ok ms =>
    let t0 := result.text.getD []
    let finalText :=
      if !calls.isEmpty && t0.isEmpty then
        match followupText with
        | some u => if u.isEmpty then t0 else u
        | none => t0
      else t0
    .ok ⟨finalText, ms⟩

/-- geminiService.ts line 52: the clause appended to the base directive. -/
def levelClause : Str := str "\n\nCurrent User Knowledge Level: "

/-- geminiService.ts line 52: the systemInstruction template literal.  The base
directive (SYSTEM_INSTRUCTION) is a parameter, since the claims quantify
over it and its fixed text plays no role in the composition. -/
def composeSystemInstruction (base level : Str) : Str :=
  base ++ levelClause ++ level

/-- Message roles of types.ts. -/
inductive Role
  | user
  | model
  | system
deriving DecidableEq, Repr

/-- types.ts: a conversation turn. -/
structure Message where
  id : Str
  role : Role
  text : Str
  timestamp : Nat
deriving DecidableEq, Repr

/-- One entry of the history array handed to sendMessageToGemini
(role plus a single text part). -/
structure HistEntry where
  role : Role
  text : Str
deriving DecidableEq, Repr

/-- Arguments of one call to sendMessageToGemini, the Remote Completion Client. -/
structure SendRequest where
  history : List HistEntry
  message : Str
  knowledgeLevel : Str
deriving DecidableEq, Repr

/-- App.tsx line 125 and part_001 lines 91-94: the history projection
messages.map over role and text. -/
def histOf (msgs : List Message) : List HistEntry :=
  msgs.map (fun m => ⟨m.role, m.text⟩)

/-- Ordered turn sequence the chat API transmits for one request: the history
given to chats.create followed by the new user message of sendMessage
(geminiService.ts lines 49-58). -/
def requestTurns (req : SendRequest) : List HistEntry :=
  req.history ++ [⟨Role.user, req.message⟩]

/-- Decimal rendering of Date.now() used for message ids. -/
def natStr (n : Nat) : Str := (toString n).data

/-- Split s at the first occurrence of a closing fence, returning the content
before the fence and the rest after it. -/
def findFence : Str → Option (Str × Str)
  | [] => none
  | c :: t =>
    if (str "```").isPrefixOf (c :: t) then some ([], (c :: t).drop 3)
    else
      match findFence t with
      | some (pre, rest) => some (c :: pre, rest)
      | none => none

/-- Case-insensitive mermaid fence opener at the start of s. -/
def mermaidTagAt (s : Str) : Bool := startsWithCI (str "```mermaid") s

/-- App.tsx lines 132-142: the exec loop of mermaidRegex, collecting the trimmed
capture of every tagged fence in order.  Fuel counts scanned characters;
s.length suffices since every step consumes at least one character. -/
def extractMermaidAux : Nat → Str → List Str
  | 0, _ => []
  | _ + 1, [] => []
  | fuel + 1, c :: t =>
    if mermaidTagAt (c :: t) then
      match findFence (((c :: t).drop 10).dropWhile isWs) with
      | some (content, rest) => trimStr content :: extractMermaidAux fuel rest
      | none => []
    else extractMermaidAux fuel t

/-- All mermaid blocks of a model response, trimmed, in order of appearance. -/
def extractMermaidBlocks (s : Str) : List Str := extractMermaidAux s.length s

/-- Optional tag alternatives of the diagram regex in part_001 line 57,
tried in the order of the alternation. -/
def p1DropTag (s : Str) : Str :=
  if startsWithCI (str "mermaid") s then s.drop 7
  else if startsWithCI (str "flowchart") s then s.drop 9
  else if startsWithCI (str "text") s then s.drop 4
  else s

/-- part_001 line 57: the first (untrimmed) capture of the diagram regex, whose
fence tag is optional, so generic untagged fences are captured too. -/
def p1FirstBlock : Str → Option Str
  | [] => none
  | c :: t =>
    if (str "```").isPrefixOf (c :: t) then
      match findFence ((p1DropTag ((c :: t).drop 3)).dropWhile isWs) with
      | some (content, _) => some content
      | none => p1FirstBlock t
    else p1FirstBlock t

/-- part_001 lines 57-64: accept the first fenced block as a diagram only when
it is nonempty and contains a structural marker, then trim it. -/
def p1DiagramOf (text : Str) : Option Str :=
  match p1FirstBlock text with
  | none => none
  | some content =>
    if !content.isEmpty &&
        (containsSub content (str "-->") || containsSub content (str "graph") ||
          containsSub content (str "subgraph")) then
      some (trimStr content)
    else none

/-- Pane tabs of types.ts (App.tsx uses the first two). -/
inductive PaneTab
  | visualizer
  | templates
  | upload
  | imageGen
deriving DecidableEq, Repr

/-- App.tsx lines 136-141: a visual artifact; its random id is omitted as opaque. -/
structure VisualItem where
  content : Str
  timestamp : Nat
deriving DecidableEq, Repr

/-- App.tsx component state touched by the primary send path (glossary overlay
and markdown rendering state are out of scope). -/
structure AppState where
  messages : List Message
  input : Str
  isLoading : Bool
  knowledgeLevel : Str
  visualItems : List VisualItem
  mentorMode : Bool
  showToast : Bool
  toastMsg : Str
  activeTab : PaneTab
deriving DecidableEq, Repr

/-- App.tsx line 114: toast shown when the Gate blocks. -/
def appBlockedToast : Str :=
  str "Encrypt focuses on logic architecture. Direct solutions are restricted."

/-- App.tsx line 152: toast shown on a transport failure. -/
def appErrorToast : Str :=
  str "Logical connection lost. Please rephrase or refresh."

/-- JavaScript truthiness of the optional customPrompt: an empty string is falsy. -/
def truthy (cp : Option Str) : Option Str :=
  match cp with
  | none => none
  | some p => if p.isEmpty then none else some p

/-- App.tsx line 110: const text = customPrompt or input. -/
def appSendText (st : AppState) (cp : Option Str) : Str :=
  (truthy cp).getD st.input

/-- App.tsx lines 109-126: handleSendMessage up to the awaited network call.
Returns the new component state and the request handed to
sendMessageToGemini, if one is issued.  The history is built from the
messages value captured before the user turn is appended. -/
def appHandleSendStart (st : AppState) (customPrompt : Option Str) (now : Nat) :
    AppState × Option SendRequest :=
  if (trimStr (appSendText st customPrompt)).isEmpty || st.isLoading then (st, none)
  else if (truthy customPrompt).isNone && appCheatRegexTest (appSendText st customPrompt) then
    ({ st with toastMsg := appBlockedToast, showToast := true }, none)
  else
    ({ st with
        messages := st.messages ++
          [⟨natStr now, Role.user, appSendText st customPrompt, now⟩],
        input := [], isLoading := true },
     some ⟨histOf st.messages, appSendText st customPrompt, st.knowledgeLevel⟩)

/-- App.tsx line 149: setMentorMode runs only on a truthy mentorStatus and
compares it against the satisfied literal. -/
def appMentorUpdate (cur : Bool) (signal : Option Str) : Bool :=
  match signal with
  | none => cur
  | some s => if s.isEmpty then cur else decide (s = str "satisfied")

/-- App.tsx lines 128-149 plus the finally block: state update after a
successful completion. -/
def appHandleSendSuccess (st : AppState) (resp : ChatResponse) (now : Nat) : AppState :=
  let newItems := (extractMermaidBlocks resp.text).map (fun c => (⟨c, now⟩ : VisualItem))
  { st with
    messages := st.messages ++ [⟨natStr (now + 1), Role.model, resp.text, now⟩],
    visualItems := st.visualItems ++ newItems,
    activeTab := if newItems.isEmpty then st.activeTab else PaneTab.visualizer,
    mentorMode := appMentorUpdate st.mentorMode resp.mentorStatus,
    isLoading := false }

/-- App.tsx lines 150-156: catch plus finally on a transport failure. -/
def appHandleSendFailure (st : AppState) : AppState :=
  { st with toastMsg := appErrorToast, showToast := true, isLoading := false }

/-- App.tsx line 38: the welcome turn seeded into the History Buffer. -/
def appWelcomeText : Str :=
  str "Greetings. I am **Encrypt**. \n\nI architect logic streams to help you understand systems deeply. \n\nKeywords in [[Blue]] are interactive, providing instant context. What shall we explore today?"

/-- App.tsx lines 34-50: initial component state (t0 is the render-time clock). -/
def appInitialState (t0 : Nat) : AppState :=
  { messages := [⟨str "welcome", Role.model, appWelcomeText, t0⟩],
    input := [], isLoading := false, knowledgeLevel := str "Beginner",
    visualItems := [], mentorMode := false, showToast := false, toastMsg := [],
    activeTab := PaneTab.visualizer }

/-- part_001 component state touched by the claims (the image-studio state
is out of scope). -/
structure P1State where
  messages : List Message
  input : Str
  isLoading : Bool
  knowledgeLevel : Str
  currentDiagram : Str
  mentorMode : Bool
  showToast : Bool
  activeTab : PaneTab
deriving DecidableEq, Repr

/-- part_001 line 118: the apology turn appended by the catch block. -/
def p1ApologyText : Str :=
  str "I apologize, but I encountered a momentary lapse in my connection. Let us try that again."

/-- The apostrophe character, kept out of string literals. -/
def apos : Char := Char.ofNat 39

/-- part_001 line 101: filler used when the response text is empty. -/
def p1FillerText : Str :=
  str "I see. Let" ++ [apos] ++ str "s break this down further."

/-- part_001 lines 52-66: the diagram-extraction effect, which observes the
newest turn whenever messages changes and reacts only to model turns. -/
def p1DiagramEffect (st : P1State) : P1State :=
  match st.messages.getLast? with
  | none => st
  | some m =>
    if m.role = Role.model then
      match p1DiagramOf m.text with
      | some d => { st with currentDiagram := d, activeTab := PaneTab.visualizer }
      | none => st
    else st

/-- part_001 lines 68-96: handleSendMessage up to the awaited network call.
The only refusal guards are blank input and the Gate; isLoading is not
consulted. -/
def p1HandleSendStart (st : P1State) (now : Nat) : P1State × Option SendRequest :=
  if (trimStr st.input).isEmpty then (st, none)
  else if p1ShouldBlock st.input then ({ st with showToast := true }, none)
  else
    ({ st with messages := st.messages ++ [⟨natStr now, Role.user, st.input, now⟩],
               input := [], isLoading := true },
     some ⟨histOf st.messages, st.input, st.knowledgeLevel⟩)

/-- part_001 lines 107-111: mentor mode update. -/
def p1MentorUpdate (cur : Bool) (signal : Option Str) : Bool :=
  if signal = some (str "satisfied") then true
  else if signal = some (str "searching") then false
  else cur

/-- part_001 lines 96-111 plus finally, with the diagram effect triggered by
the appended model turn. -/
def p1HandleSendSuccess (st : P1State) (resp : ChatResponse) (now : Nat) : P1State :=
  let aiText := if resp.text.isEmpty then p1FillerText else resp.text
  p1DiagramEffect
    { st with
      messages := st.messages ++ [⟨natStr (now + 1), Role.model, aiText, now⟩],
      mentorMode := p1MentorUpdate st.mentorMode resp.mentorStatus,
      isLoading := false }

/-- part_001 lines 113-123: the catch block appends an apology model turn to the
History Buffer (no toast is raised there), then finally clears isLoading. -/
def p1HandleSendFailure (st : P1State) (now : Nat) : P1State :=
  p1DiagramEffect
    { st with
      messages := st.messages ++ [⟨natStr now, Role.model, p1ApologyText, now⟩],
      isLoading := false }

/-- part_001 line 25: the welcome turn seeded into the History Buffer. -/
def p1WelcomeText : Str :=
  str "Greetings. I am Unnamed. Before we begin, please select your knowledge level and tell me: What specific concept or logic are we exploring today?"

/-- part_001 lines 21-35: initial component state (t0 is the render-time clock). -/
def p1InitialState (t0 : Nat) : P1State :=
  { messages := [⟨str "welcome", Role.model, p1WelcomeText, t0⟩],
    input := [], isLoading := false, knowledgeLevel := str "Beginner",
    currentDiagram := [], mentorMode := false, showToast := false,
    activeTab := PaneTab.visualizer }

/-- Sample state: a typed question that passes both gates. -/
def wAppAsk : AppState :=
  { appInitialState 0 with input := str "how does recursion terminate" }

/-- State after the send start of wAppAsk at clock 7. -/
def wAppAskAfter : AppState :=
  { wAppAsk with
    messages := wAppAsk.messages ++
      [⟨natStr 7, Role.user, str "how does recursion terminate", 7⟩],
    input := [], isLoading := true }

/-- Request emitted by the send start of wAppAsk at clock 7. -/
def wAppAskReq : SendRequest :=
  ⟨histOf wAppAsk.messages, str "how does recursion terminate", str "Beginner"⟩

/-- Sample part_001 state: a typed question that passes the gate. -/
def wP1Ask : P1State :=
  { p1InitialState 0 with input := str "how does recursion terminate" }

/-- State after the send start of wP1Ask at clock 7. -/
def wP1AskAfter : P1State :=
  { wP1Ask with
    messages := wP1Ask.messages ++
      [⟨natStr 7, Role.user, str "how does recursion terminate", 7⟩],
    input := [], isLoading := true }

/-- Request emitted by the send start of wP1Ask at clock 7. -/
def wP1AskReq : SendRequest :=
  ⟨histOf wP1Ask.messages, str "how does recursion terminate", str "Beginner"⟩

/-- Sample state whose typed input both gates block. -/
def wAppBlocked : AppState :=
  { appInitialState 0 with input := str "give me the code" }

/-- Sample part_001 state whose typed input the gate blocks. -/
def wP1Blocked : P1State :=
  { p1InitialState 0 with input := str "give me the code" }

/-- Sample state with a send already in flight. -/
def wAppLoading : AppState :=
  { appInitialState 0 with input := str "hello", isLoading := true }

/-- Sample part_001 state with a send already in flight. -/
def wP1Loading : P1State :=
  { p1InitialState 0 with input := str "hello", isLoading := true }

/-- Sample state typing a solution request that carries an explain qualifier. -/
def wAppQualified : AppState :=
  { appInitialState 0 with input := str "write the full solution, explain the logic" }

/-- Sample part_001 state awaiting a completion for one pending user turn. -/
def wP1Failed : P1State :=
  { p1InitialState 1 with
    messages := [⟨str "1", Role.user, str "hi", 1⟩], isLoading := true }

theorem p1DiagramEffect_fields (st : P1State) :
    (p1DiagramEffect st).messages = st.messages ∧
    (p1DiagramEffect st).mentorMode = st.mentorMode ∧
    (p1DiagramEffect st).showToast = st.showToast ∧
    (p1DiagramEffect st).isLoading = st.isLoading := by
  unfold p1DiagramEffect
  repeat' split
  all_goals exact ⟨rfl, rfl, rfl, rfl⟩

theorem extractMentorStatus_skip :
    ∀ (calls : List FunctionCall) (acc : Option Str),
      (∀ c ∈ calls, c.name ≠ updateMentorStatusName) →
      extractMentorStatus calls acc = Except.ok acc := by
  intro calls
  induction calls with
  | nil => intro acc _; rfl
  | cons c rest ih =>
    intro acc h
    have hc : c.name ≠ updateMentorStatusName := h c (by simp)
    simp only [extractMentorStatus, if_neg hc]
    exact ih acc (fun d hd => h d (by simp [hd]))

/-- C1 counterexample: the claim is false on the App.tsx send path — the typed
input containing the explain qualifier is still blocked (no request, toast
raised), because App.tsx line 113 matches bare keywords with no qualifier
override. -/
theorem c1_gate_counterexample :
    containsSub (lowerStr (str "write the full solution, explain the logic"))
        (str "explain") = true ∧
    (appHandleSendStart wAppQualified none 3).2 = none ∧
    (appHandleSendStart wAppQualified none 3).1.showToast = true :=
  ⟨by decide, by decide, by decide⟩

/-- C1 amended: the part_001 Gate blocks exactly on an action+target cheatRegex
hit without a logic or explain qualifier, with the four boundary examples as
claimed; the App.tsx Gate instead blocks typed input whenever its lower-cased
text contains code, write, solution, answer or full code, so the qualified
request is blocked there. -/
theorem c1_gate_amended :
    (∀ input : Str,
        p1ShouldBlock input =
          (cheatRegexTest input &&
            !containsSub (lowerStr input) (str "logic") &&
            !containsSub (lowerStr input) (str "explain"))) ∧
    p1ShouldBlock (str "give me the code") = true ∧
    p1ShouldBlock (str "can you explain the logic behind recursion") = false ∧
    p1ShouldBlock (str "write the full solution") = true ∧
    p1ShouldBlock (str "write the full solution, explain the logic") = false ∧
    (∀ text : Str,
        appCheatRegexTest text =
          (containsSub (lowerStr text) (str "code") ||
            containsSub (lowerStr text) (str "write") ||
            containsSub (lowerStr text) (str "solution") ||
            containsSub (lowerStr text) (str "answer") ||
            containsSub (lowerStr text) (str "full code"))) ∧
    appCheatRegexTest (str "give me the code") = true ∧
    appCheatRegexTest (str "can you explain the logic behind recursion") = false ∧
    appCheatRegexTest (str "write the full solution") = true ∧
    appCheatRegexTest (str "write the full solution, explain the logic") = true :=
  ⟨fun _ => rfl, by decide, by decide, by decide, by decide,
   fun _ => rfl, by decide, by decide, by decide, by decide⟩

/-- C2: every emitted request carries the whole History Buffer captured before
the append, in order with role and text preserved, and the turn sequence the
chat API transmits equals the post-append buffer snapshot — no turn omitted,
duplicated or reordered — for both send-path variants. -/
theorem c2_request_carries_full_history :
    (∀ (st : AppState) (cp : Option Str) (now : Nat) (st2 : AppState)
        (req : SendRequest),
        appHandleSendStart st cp now = (st2, some req) →
        req.history = histOf st.messages ∧
        st2.messages = st.messages ++ [⟨natStr now, Role.user, req.message, now⟩] ∧
        requestTurns req = histOf st2.messages) ∧
    (∀ (st : P1State) (now : Nat) (st2 : P1State) (req : SendRequest),
        p1HandleSendStart st now = (st2, some req) →
        req.history = histOf st.messages ∧
        st2.messages = st.messages ++ [⟨natStr now, Role.user, req.message, now⟩] ∧
        requestTurns req = histOf st2.messages) := by
  constructor
  · intro st cp now st2 req h
    unfold appHandleSendStart at h
    split at h
    · simp at h
    · split at h
      · simp at h
      · rw [Prod.mk.injEq] at h
        obtain ⟨h1, h2⟩ := h
        injection h2 with h2
        subst h1
        subst h2
        refine ⟨rfl, rfl, ?_⟩
        simp [requestTurns, histOf]
  · intro st now st2 req h
    unfold p1HandleSendStart at h
    split at h
    · simp at h
    · split at h
      · simp at h
      · rw [Prod.mk.injEq] at h
        obtain ⟨h1, h2⟩ := h
        injection h2 with h2
        subst h1
        subst h2
        refine ⟨rfl, rfl, ?_⟩
        simp [requestTurns, histOf]

/-- C2 witness: the concrete send of a typed question from the seeded initial
state, in both variants. -/
theorem c2_request_witness :
    (wAppAskReq.history = histOf wAppAsk.messages ∧
      wAppAskAfter.messages =
        wAppAsk.messages ++ [⟨natStr 7, Role.user, wAppAskReq.message, 7⟩] ∧
      requestTurns wAppAskReq = histOf wAppAskAfter.messages) ∧
    (wP1AskReq.history = histOf wP1Ask.messages ∧
      wP1AskAfter.messages =
        wP1Ask.messages ++ [⟨natStr 7, Role.user, wP1AskReq.message, 7⟩] ∧
      requestTurns wP1AskReq = histOf wP1AskAfter.messages) :=
  ⟨c2_request_carries_full_history.1 wAppAsk none 7 wAppAskAfter wAppAskReq rfl,
   c2_request_carries_full_history.2 wP1Ask 7 wP1AskAfter wP1AskReq rfl⟩

/-- C3 counterexample: the claim is false on the part_001 send path — after a
transport failure the catch block appends a new model turn (the apology) to
the History Buffer. -/
theorem c3_failure_counterexample :
    (p1HandleSendFailure wP1Failed 9).messages =
      [⟨str "1", Role.user, str "hi", 1⟩,
        ⟨natStr 9, Role.model, p1ApologyText, 9⟩] ∧
    ((p1HandleSendFailure wP1Failed 9).messages.filter
        (fun m => decide (m.role = Role.model))).length = 1 :=
  ⟨by decide, by decide⟩

/-- C3 amended: after a transport failure the user turn is retained and the
mentor tracker is unchanged in both variants; App.tsx appends no model turn
and surfaces only the generic toast, while part_001 instead appends an
apology model turn (and raises no toast). -/
theorem c3_failure_amended :
    (∀ (st : AppState) (cp : Option Str) (now : Nat) (st2 : AppState)
        (req : SendRequest),
        appHandleSendStart st cp now = (st2, some req) →
        (appHandleSendFailure st2).messages =
          st.messages ++ [⟨natStr now, Role.user, req.message, now⟩] ∧
        (appHandleSendFailure st2).mentorMode = st.mentorMode ∧
        (appHandleSendFailure st2).showToast = true ∧
        (appHandleSendFailure st2).toastMsg = appErrorToast) ∧
    (∀ (st : P1State) (now : Nat) (st2 : P1State) (req : SendRequest) (now2 : Nat),
        p1HandleSendStart st now = (st2, some req) →
        (p1HandleSendFailure st2 now2).messages =
          st.messages ++ [⟨natStr now, Role.user, req.message, now⟩,
            ⟨natStr now2, Role.model, p1ApologyText, now2⟩] ∧
        (p1HandleSendFailure st2 now2).mentorMode = st.mentorMode ∧
        (p1HandleSendFailure st2 now2).showToast = st.showToast) := by
  constructor
  · intro st cp now st2 req h
    unfold appHandleSendStart at h
    split at h
    · simp at h
    · split at h
      · simp at h
      · rw [Prod.mk.injEq] at h
        obtain ⟨h1, h2⟩ := h
        injection h2 with h2
        subst h1
        subst h2
        exact ⟨rfl, rfl, rfl, rfl⟩
  · intro st now st2 req now2 h
    unfold p1HandleSendStart at h
    split at h
    · simp at h
    · split at h
      · simp at h
      · rw [Prod.mk.injEq] at h
        obtain ⟨h1, h2⟩ := h
        injection h2 with h2
        subst h1
        subst h2
        unfold p1HandleSendFailure
        obtain ⟨hm, hmm, hst, -⟩ := p1DiagramEffect_fields
          { st with
            messages := (st.messages ++ [⟨natStr now, Role.user, st.input, now⟩]) ++
              [⟨natStr now2, Role.model, p1ApologyText, now2⟩],
            input := [], isLoading := false }
        refine ⟨?_, ?_, ?_⟩
        · rw [hm]; simp
        · rw [hmm]
        · rw [hst]

/-- C3 witness: a concrete failed send in both variants. -/
theorem c3_failure_witness :
    ((appHandleSendFailure wAppAskAfter).messages =
        wAppAsk.messages ++ [⟨natStr 7, Role.user, wAppAskReq.message, 7⟩] ∧
      (appHandleSendFailure wAppAskAfter).mentorMode = wAppAsk.mentorMode ∧
      (appHandleSendFailure wAppAskAfter).showToast = true ∧
      (appHandleSendFailure wAppAskAfter).toastMsg = appErrorToast) ∧
    ((p1HandleSendFailure wP1AskAfter 9).messages =
        wP1Ask.messages ++ [⟨natStr 7, Role.user, wP1AskReq.message, 7⟩,
          ⟨natStr 9, Role.model, p1ApologyText, 9⟩] ∧
      (p1HandleSendFailure wP1AskAfter 9).mentorMode = wP1Ask.mentorMode ∧
      (p1HandleSendFailure wP1AskAfter 9).showToast = wP1Ask.showToast) :=
  ⟨c3_failure_amended.1 wAppAsk none 7 wAppAskAfter wAppAskReq rfl,
   c3_failure_amended.2 wP1Ask 7 wP1AskAfter wP1AskReq 9 rfl⟩

/-- C4: in both variants the Mentor Status Tracker starts in Searching (false);
on a response cycle a satisfied signal sets Satisfied (true), a searching
signal sets Searching (also from Satisfied, which is not absorbing), and an
absent signal leaves the state unchanged. -/
theorem c4_mentor_tracker :
    (∀ t0 : Nat,
        (appInitialState t0).mentorMode = false ∧
        (p1InitialState t0).mentorMode = false) ∧
    (∀ b, appMentorUpdate b (some (str "satisfied")) = true) ∧
    (∀ b, appMentorUpdate b (some (str "searching")) = false) ∧
    (∀ b, appMentorUpdate b none = b) ∧
    (∀ b, p1MentorUpdate b (some (str "satisfied")) = true) ∧
    (∀ b, p1MentorUpdate b (some (str "searching")) = false) ∧
    (∀ b, p1MentorUpdate b none = b) ∧
    (∀ st resp now,
        (appHandleSendSuccess st resp now).mentorMode =
          appMentorUpdate st.mentorMode resp.mentorStatus) ∧
    (∀ st resp now,
        (p1HandleSendSuccess st resp now).mentorMode =
          p1MentorUpdate st.mentorMode resp.mentorStatus) ∧
    appMentorUpdate (appMentorUpdate false (some (str "satisfied")))
        (some (str "searching")) = false ∧
    p1MentorUpdate (p1MentorUpdate false (some (str "satisfied")))
        (some (str "searching")) = false := by
  refine ⟨fun t0 => ⟨rfl, rfl⟩, fun b => by cases b <;> decide,
    fun b => by cases b <;> decide, fun b => rfl, fun b => by cases b <;> decide,
    fun b => by cases b <;> decide, fun b => rfl,
    fun _ _ _ => rfl, fun st resp now => ?_, by decide, by decide⟩
  unfold p1HandleSendSuccess
  exact (p1DiagramEffect_fields _).2.1

/-- C5 counterexample: the claim is false on the part_001 extraction — a
generic untagged code fence is accepted as a diagram, and a mermaid-tagged
block with no structural marker is rejected. -/
theorem c5_diagram_counterexample :
    p1DiagramOf (str "```\nA-->B\n```") = some (str "A-->B") ∧
    p1DiagramOf (str "```mermaid\nhello\n```") = none :=
  ⟨rfl, rfl⟩

/-- C5 amended: the App.tsx extraction behaves exactly as claimed (all mermaid
blocks, trimmed, in order, untagged fences ignored, no marker requirement,
round-trip exact, appended to the artifact list in order); the part_001
extraction instead takes only the first fenced block of any tag and keeps it
only when it contains an arrow or graph marker. -/
theorem c5_diagram_amended :
    extractMermaidBlocks
        (str "Here is the idea:\n```mermaid\ngraph TD; A-->B;\n```\nDone.") =
      [str "graph TD; A-->B;"] ∧
    extractMermaidBlocks (str "```\ngraph TD; A-->B;\n```") = [] ∧
    extractMermaidBlocks (str "```mermaid\nhello\n```") = [str "hello"] ∧
    extractMermaidBlocks (str "```mermaid\nA-->B\n```\ntext\n```mermaid\nC-->D\n```") =
      [str "A-->B", str "C-->D"] ∧
    p1DiagramOf (str "x\n```mermaid\ngraph TD; A-->B;\n```") =
      some (str "graph TD; A-->B;") ∧
    p1DiagramOf (str "```mermaid\nA-->B\n```\n```mermaid\nC-->D\n```") =
      some (str "A-->B") ∧
    (∀ st resp now,
        (appHandleSendSuccess st resp now).visualItems =
          st.visualItems ++
            (extractMermaidBlocks resp.text).map (fun c => (⟨c, now⟩ : VisualItem))) :=
  ⟨rfl, rfl, rfl, rfl, rfl, rfl, fun st resp now => rfl⟩

/-- C6 counterexample: the claim is false on geminiService.ts — a tool call
naming the capability with a status outside the two-value enumeration still
produces a signal (the cast performs no validation), and a call naming the
capability with an absent args object raises, so the accompanying free text
is lost rather than extracted. -/
theorem c6_signal_counterexample :
    extractMentorStatus
        [⟨updateMentorStatusName, some ⟨some (str "banana")⟩⟩] none =
      Except.ok (some (str "banana")) ∧
    (str "banana" ≠ str "searching") ∧ (str "banana" ≠ str "satisfied") ∧
    geminiResponseOf
        ⟨some (str "Here is a hint."), some [⟨updateMentorStatusName, none⟩]⟩ none =
      Except.error () :=
  ⟨rfl, by decide, by decide, rfl⟩

/-- C6 amended: the mentor signal is the status field of the args of the last
tool call naming updateMentorStatus, passed through without validation;
calls with other names yield no signal; a capability call whose args object
is absent makes extraction throw; when text is present alongside a valid
capability call, both the text and the signal are extracted. -/
theorem c6_signal_amended :
    (∀ v : Option Str,
        extractMentorStatus [⟨updateMentorStatusName, some ⟨v⟩⟩] none =
          Except.ok v) ∧
    (∀ calls : List FunctionCall,
        (∀ c ∈ calls, c.name ≠ updateMentorStatusName) →
        extractMentorStatus calls none = Except.ok none) ∧
    extractMentorStatus [⟨updateMentorStatusName, none⟩] none = Except.error () ∧
    (∀ (t v : Str) (f : Option Str), t.isEmpty = false →
        geminiResponseOf
            ⟨some t, some [⟨updateMentorStatusName, some ⟨some v⟩⟩]⟩ f =
          Except.ok ⟨t, some v⟩) := by
  refine ⟨fun v => rfl, fun calls h => extractMentorStatus_skip calls none h, rfl,
    fun t v f h => ?_⟩
  simp [geminiResponseOf, extractMentorStatus, h]

/-- C6 witness: a foreign tool name yields no signal, and a valid capability
call alongside text yields both the text and the signal. -/
theorem c6_signal_witness :
    extractMentorStatus
        [⟨str "someOtherTool", some ⟨some (str "satisfied")⟩⟩] none =
      Except.ok none ∧
    geminiResponseOf
        ⟨some (str "A hint."),
          some [⟨updateMentorStatusName, some ⟨some (str "satisfied")⟩⟩]⟩ none =
      Except.ok ⟨str "A hint.", some (str "satisfied")⟩ :=
  ⟨c6_signal_amended.2.1 [⟨str "someOtherTool", some ⟨some (str "satisfied")⟩⟩]
      (by decide),
   c6_signal_amended.2.2.2 (str "A hint.") (str "satisfied") none rfl⟩

/-- C7 counterexample: the claim is false on geminiService.ts — for the
unrecognized level Wizard the composed directive is not the base directive
alone; the code appends the uniform clause for every level value. -/
theorem c7_compose_counterexample :
    composeSystemInstruction (str "BASE DIRECTIVE") (str "Wizard") ≠
      str "BASE DIRECTIVE" ∧
    (str "Wizard" ≠ str "Beginner") ∧
    (str "Wizard" ≠ str "Intermediate") ∧
    (str "Wizard" ≠ str "Advanced") :=
  ⟨by decide, by decide, by decide, by decide⟩

/-- C7 amended: for every base directive and every knowledge-level value,
recognized or not, the composed directive is the base directive followed by
the uniform clause naming the level; it is never the base directive alone. -/
theorem c7_compose_amended :
    ∀ base level : Str,
      composeSystemInstruction base level = base ++ levelClause ++ level ∧
      composeSystemInstruction base level ≠ base := by
  intro base level
  refine ⟨rfl, fun h => ?_⟩
  have hl := congrArg List.length h
  simp only [composeSystemInstruction, List.length_append] at hl
  have hp : 0 < levelClause.length := by decide
  omega

/-- C8: in both variants a gate-blocked typed input causes no state change
beyond the user-visible notice — the input is not appended to the History
Buffer, no request is handed to the Remote Completion Client, and the
resulting state differs only in the toast fields. -/
theorem c8_blocked_no_state_change :
    (∀ (st : AppState) (now : Nat),
        (trimStr st.input).isEmpty = false → st.isLoading = false →
        appCheatRegexTest st.input = true →
        appHandleSendStart st none now =
          ({ st with toastMsg := appBlockedToast, showToast := true }, none)) ∧
    (∀ (st : P1State) (now : Nat),
        (trimStr st.input).isEmpty = false → p1ShouldBlock st.input = true →
        p1HandleSendStart st now = ({ st with showToast := true }, none)) := by
  constructor
  · intro st now h1 h2 h3
    simp [appHandleSendStart, appSendText, truthy, h1, h2, h3]
  · intro st now h1 h2
    simp [p1HandleSendStart, h1, h2]

/-- C8 witness: the concrete blocked input in both variants. -/
theorem c8_blocked_witness :
    appHandleSendStart wAppBlocked none 3 =
      ({ wAppBlocked with toastMsg := appBlockedToast, showToast := true }, none) ∧
    p1HandleSendStart wP1Blocked 3 = ({ wP1Blocked with showToast := true }, none) :=
  ⟨c8_blocked_no_state_change.1 wAppBlocked 3 (by decide) rfl (by decide),
   c8_blocked_no_state_change.2 wP1Blocked 3 (by decide) (by decide)⟩

/-- C9 counterexample: the claim is false on the part_001 send path — with a
send already in flight (isLoading true) and fresh non-blank input, the
handler still emits a second completion request, because part_001 line 69
guards only against blank input. -/
theorem c9_serialization_counterexample :
    wP1Loading.isLoading = true ∧
    (p1HandleSendStart wP1Loading 5).2.isSome = true :=
  ⟨rfl, by decide⟩

/-- C9 amended: App.tsx refuses every send attempted while a previous send is
pending (state unchanged, no request); part_001 refuses only blank or
gate-blocked input, so a gate-passing non-blank input starts a second
completion request even while one is pending. -/
theorem c9_serialization_amended :
    (∀ (st : AppState) (cp : Option Str) (now : Nat),
        st.isLoading = true → appHandleSendStart st cp now = (st, none)) ∧
    (∀ (st : P1State) (now : Nat),
        (trimStr st.input).isEmpty = false → p1ShouldBlock st.input = false →
        (p1HandleSendStart st now).2.isSome = true) := by
  constructor
  · intro st cp now h
    simp [appHandleSendStart, h]
  · intro st now h1 h2
    simp [p1HandleSendStart, h1, h2]

/-- C9 witness: a concrete in-flight refusal in App.tsx and a concrete
in-flight second send in part_001. -/
theorem c9_serialization_witness :
    appHandleSendStart wAppLoading none 4 = (wAppLoading, none) ∧
    (p1HandleSendStart wP1Loading 4).2.isSome = true :=
  ⟨c9_serialization_amended.1 wAppLoading none 4 rfl,
   c9_serialization_amended.2 wP1Loading 4 (by decide) (by decide)⟩

/-- C10: a send via a truthy customPrompt skips the Gate entirely in App.tsx —
even when the prompt matches the blocked pattern, the user turn is appended
and the request is handed to the Remote Completion Client. -/
theorem c10_customPrompt_skips_gate :
    ∀ (st : AppState) (p : Str) (now : Nat),
      p.isEmpty = false → (trimStr p).isEmpty = false → st.isLoading = false →
      appCheatRegexTest p = true →
      appHandleSendStart st (some p) now =
        ({ st with messages := st.messages ++ [⟨natStr now, Role.user, p, now⟩],
                   input := [], isLoading := true },
         some ⟨histOf st.messages, p, st.knowledgeLevel⟩) := by
  intro st p now h0 h1 h2 _
  simp [appHandleSendStart, appSendText, truthy, h0, h1, h2]

/-- C10 witness: the gate-matching prompt give me the code sent as a
customPrompt from the initial state is appended and dispatched. -/
theorem c10_customPrompt_witness :
    appHandleSendStart (appInitialState 0) (some (str "give me the code")) 3 =
      ({ appInitialState 0 with
          messages := (appInitialState 0).messages ++
            [⟨natStr 3, Role.user, str "give me the code", 3⟩],
          input := [], isLoading := true },
       some ⟨histOf (appInitialState 0).messages, str "give me the code",
         str "Beginner"⟩) :=
  c10_customPrompt_skips_gate (appInitialState 0) (str "give me the code") 3
    (by decide) (by decide) rfl (by decide)
